import Mathlib

/-!
Verification development for the recording-workflow orchestration engine of
the radio-stream-recorder repository: a cron-driven scheduler with
concurrency admission control, a per-recording workflow state machine
(capture → process → transfer), an SCP transfer client with internal retry,
and a durable transfer queue with backoff retry.

The definitions below are shallow embeddings of the Python sources:
  - src/services/recording_session_manager.py  (workflow state machine)
  - src/services/scp_transfer_service.py       (SCP client retry loop)
  - src/services/transfer_queue.py             (durable retry queue)
  - src/services/scheduler_service.py          (admission control)
  - src/models/recording_schedule.py           (cron field validation)
External effects (file system, network, clock) are passed explicitly as
parameters; machine behaviour (branching, counters, backoff arithmetic,
status bookkeeping) mirrors the source line by line.
-/

set_option maxHeartbeats 1000000

namespace RadioRec

/-! ## Workflow stages (recording_session_manager.WorkflowStage) -/

/-- The seven workflow stages of `recording_session_manager.WorkflowStage`. -/
inductive WorkflowStage
  | initializing
  | recording
  | processing
  | transferring
  | completed
  | failed
  | cancelled
deriving DecidableEq

/-! ## RecordingSessionManager workflow run (C1)

`_run_workflow` runs the three stages in order.  Each stage's interaction
with the outside world is abstracted into the environment below:
whether capture succeeds, whether processing succeeds, whether a stop was
requested between stages, and the outcome of the synchronous SCP transfer
performed by `_execute_transfer_stage` (success, a failed `TransferResult`,
or an exception escaping the stage). -/

/-- Outcome of the synchronous SCP call inside `_execute_transfer_stage`. -/
inductive TransferStageOutcome
  | ok
  | fail
  | exn
deriving DecidableEq

/-- Environment of one `_run_workflow` execution. -/
structure WorkflowEnv where
  recordingOk : Bool
  stopAfterRecording : Bool
  processingOk : Bool
  stopAfterProcessing : Bool
  transferOutcome : TransferStageOutcome
deriving DecidableEq

/-- Observable result of one `_run_workflow` execution: the final value of
`current_stage`, whether `SCPTransferService.transfer_file` was invoked
synchronously from the transfer stage, and whether anything was enqueued to
the `TransferQueue` (the session manager never touches the queue). -/
structure WorkflowRun where
  finalStage : WorkflowStage
  scpInvoked : Bool
  enqueued : Bool
deriving DecidableEq

/-- Embedding of `RecordingSessionManager._execute_transfer_stage`
(recording_session_manager.py lines 324-364): sets the stage to
`transferring`, synchronously calls `scp_service.transfer_file`, returns
`True` on success; on a failed result it records an error message and
returns `False` WITHOUT any further stage update (the stage stays
`transferring`); only an escaping exception sets the stage to `failed`.
The returned pair is (boolean result, stage after the call). -/
def execute_transfer_stage (outcome : TransferStageOutcome) : Bool × WorkflowStage :=
  match outcome with
  | .ok => (true, .transferring)
  | .fail => (false, .transferring)
  | .exn => (false, .failed)

/-- Embedding of `RecordingSessionManager._run_workflow`
(recording_session_manager.py lines 180-219): recording stage (failure sets
`failed`), cancellation check, processing stage (failure sets `failed`),
cancellation check, transfer stage, and only when the transfer stage
returns `True` the stage is set to `completed`. -/
def run_workflow (env : WorkflowEnv) : WorkflowRun :=
  if env.recordingOk = false then
    { finalStage := .failed, scpInvoked := false, enqueued := false }
  else if env.stopAfterRecording then
    { finalStage := .cancelled, scpInvoked := false, enqueued := false }
  else if env.processingOk = false then
    { finalStage := .failed, scpInvoked := false, enqueued := false }
  else if env.stopAfterProcessing then
    { finalStage := .cancelled, scpInvoked := false, enqueued := false }
  else
    let r := execute_transfer_stage env.transferOutcome
    if r.1 then
      { finalStage := .completed, scpInvoked := true, enqueued := false }
    else
      { finalStage := r.2, scpInvoked := true, enqueued := false }

/-! ## RecordingSessionManager.retry_workflow (C8) -/

/-- Session-manager state relevant to `retry_workflow`: current stage, the
retry counter and its bound, the artifact paths of the current attempt, and
the set of files that currently exist on disk (as a list of paths). -/
structure SessionState where
  current_stage : WorkflowStage
  retry_count : Nat
  max_retries : Nat
  error_message : Option String
  raw_recording_path : Option String
  processed_mp3_path : Option String
  existingFiles : List String
deriving DecidableEq

/-- Embedding of `RecordingSessionManager._cleanup_failed_attempt`
(recording_session_manager.py lines 438-449): removes the raw recording
file and the processed mp3 file of the current attempt from disk. -/
def cleanup_failed_attempt (st : SessionState) : SessionState :=
  let fs1 := match st.raw_recording_path with
    | some p => st.existingFiles.filter (fun q => q ≠ p)
    | none => st.existingFiles
  let fs2 := match st.processed_mp3_path with
    | some p => fs1.filter (fun q => q ≠ p)
    | none => fs1
  { st with existingFiles := fs2 }

/-- Embedding of `RecordingSessionManager.retry_workflow`
(recording_session_manager.py lines 406-449): refuses when the retry
counter has reached `max_retries` or when the stage is not `failed`;
otherwise increments the counter, resets the stage to `initializing`,
clears the error, deletes the prior attempt's artifacts, regenerates the
output paths (the fresh paths are passed in as `newRaw`/`newProc`, standing
for `_generate_file_paths`), and restarts the workflow.  Returns the
boolean result together with the state as it is when `start_recording`
has been entered (stage still `initializing`). -/
def retry_workflow (newRaw newProc : String) (st : SessionState) :
    Bool × SessionState :=
  if st.max_retries ≤ st.retry_count then
    (false, { st with error_message := some "Maximum retries exceeded" })
  else if st.current_stage ≠ WorkflowStage.failed then
    (false, { st with error_message := some "Cannot retry" })
  else
    let st1 := { st with
      retry_count := st.retry_count + 1,
      current_stage := WorkflowStage.initializing,
      error_message := none }
    let st2 := cleanup_failed_attempt st1
    (true, { st2 with
      raw_recording_path := some newRaw,
      processed_mp3_path := some newProc })

/-! ## SCPTransferService.transfer_file (C7, C10) -/

/-- Outcome of one low-level `_transfer_file_with_progress` call, following
the exception classification of scp_transfer_service.py lines 285-324:
a verified success, an authentication/connection failure, an SSH
protocol-level failure, or an unexpected error. -/
inductive AttemptOutcome
  | completedOk
  | authConnectionError
  | sshProtocolError
  | unexpectedError
deriving DecidableEq

/-- Whether a low-level attempt produced `TransferResult(success=True)`. -/
def AttemptOutcome.isSuccess : AttemptOutcome → Bool
  | .completedOk => true
  | _ => false

/-- The fields of `SCPConfig` that drive the retry loop and cleanup policy
(scp_transfer_service.py lines 43-54). -/
structure SCPConfig where
  max_retries : Nat
  retry_delay : Nat
  cleanup_after_transfer : Bool
deriving DecidableEq

/-- Environment of one `transfer_file` call: whether the local file exists,
whether `parse_scp_destination` succeeds, and the outcome of the k-th
low-level upload attempt. -/
structure SCPEnv where
  localFileExists : Bool
  destinationParses : Bool
  attemptOutcome : Nat → AttemptOutcome

/-- Embedding of the retry loop of `SCPTransferService.transfer_file`
(scp_transfer_service.py lines 379-411): `for attempt in
range(max_retries + 1)`, with `time.sleep(retry_delay * 2 ** (attempt - 1))`
before every attempt after the first, breaking out on success.  The first
argument of the result collects the sleeps performed, the second counts the
attempts made, the third is the outcome of the last attempt.  `fuel` is the
number of loop iterations left and `k` the current attempt index. -/
def transfer_attempt_loop (outcomes : Nat → AttemptOutcome) (retry_delay : Nat) :
    Nat → Nat → List Nat × Nat × AttemptOutcome
  | 0, k => ([], k, .unexpectedError)
  | fuel + 1, k =>
    let slp : List Nat := if k = 0 then [] else [retry_delay * 2 ^ (k - 1)]
    let r := outcomes k
    if r.isSuccess then (slp, k + 1, r)
    else if fuel = 0 then (slp, k + 1, r)
    else
      let rest := transfer_attempt_loop outcomes retry_delay fuel (k + 1)
      (slp ++ rest.1, rest.2.1, rest.2.2)

/-- Observable result of `SCPTransferService.transfer_file`: the final
`TransferResult.success`, the number of network attempts performed, the
backoff sleeps, whether the local source file was deleted, and whether the
call failed before any network attempt (missing file or malformed
destination). -/
structure SCPRun where
  success : Bool
  attemptsMade : Nat
  sleeps : List Nat
  localFileDeleted : Bool
  failedBeforeAttempt : Bool
deriving DecidableEq

/-- Embedding of `SCPTransferService.transfer_file`
(scp_transfer_service.py lines 326-417): returns a failed result when the
local file does not exist or the destination does not parse (no network
attempt, no deletion); otherwise runs the retry loop and, only when the
last attempt succeeded AND `cleanup_after_transfer` is set, removes the
local source file (lines 400-409). -/
def transfer_file (env : SCPEnv) (cfg : SCPConfig) : SCPRun :=
  if env.localFileExists = false then
    { success := false, attemptsMade := 0, sleeps := [],
      localFileDeleted := false, failedBeforeAttempt := true }
  else if env.destinationParses = false then
    { success := false, attemptsMade := 0, sleeps := [],
      localFileDeleted := false, failedBeforeAttempt := true }
  else
    let run := transfer_attempt_loop env.attemptOutcome cfg.retry_delay
      (cfg.max_retries + 1) 0
    { success := run.2.2.isSuccess,
      attemptsMade := run.2.1,
      sleeps := run.1,
      localFileDeleted := run.2.2.isSuccess && cfg.cleanup_after_transfer,
      failedBeforeAttempt := false }

/-! ## TransferQueue (C3, C4, C6, C9)

The durable store is the SQLite table `transfer_queue`, modeled as a list
of rows (transfer, status).  The in-memory structure `self._queue` is a
plain FIFO `queue.Queue` (transfer_queue.py line 70): `get` takes the
oldest inserted element, `put` appends at the tail; it is modeled as a
`List QueuedTransfer` whose head is the next element `get` returns.
Times are naturals (seconds). -/

/-- Embedding of the `QueuedTransfer` dataclass (transfer_queue.py lines
23-35); `created_at` and `metadata` play no role in any claim and are
omitted. -/
structure QueuedTransfer where
  id : Nat
  local_path : String
  scp_destination : String
  scheduled_at : Nat
  retry_count : Nat
  max_retries : Nat
  priority : Int
  last_error : Option String
deriving DecidableEq

/-- The `status` column of the `transfer_queue` table. -/
inductive TransferDbStatus
  | queued
  | processing
  | completed
  | failed
deriving DecidableEq

/-- One row of the `transfer_queue` table. -/
structure DbRow where
  transfer : QueuedTransfer
  status : TransferDbStatus
deriving DecidableEq

/-- Embedding of `_save_transfer_to_db` (INSERT OR REPLACE keyed by id). -/
def dbSave (db : List DbRow) (t : QueuedTransfer) (s : TransferDbStatus) :
    List DbRow :=
  if db.any (fun r => r.transfer.id == t.id) then
    db.map (fun r => if r.transfer.id = t.id then { transfer := t, status := s } else r)
  else
    db ++ [{ transfer := t, status := s }]

/-- Row update performed by `_update_transfer_status_in_db`: set the status
and, when an error message is supplied, also `last_error`. -/
def applyStatus (s : TransferDbStatus) (err : Option String) (r : DbRow) : DbRow :=
  { transfer := match err with
      | some e => { r.transfer with last_error := some e }
      | none => r.transfer,
    status := s }

/-- Embedding of `_update_transfer_status_in_db` (transfer_queue.py lines
160-175). -/
def dbUpdateStatus (db : List DbRow) (tid : Nat) (s : TransferDbStatus)
    (err : Option String) : List DbRow :=
  db.map (fun r => if r.transfer.id = tid then applyStatus s err r else r)

/-- Embedding of `_remove_transfer_from_db`. -/
def dbRemove (db : List DbRow) (tid : Nat) : List DbRow :=
  db.filter (fun r => r.transfer.id ≠ tid)

/-- Row lookup by id (`SELECT * FROM transfer_queue WHERE id = ?`). -/
def dbLookup (db : List DbRow) (tid : Nat) : Option DbRow :=
  db.find? (fun r => r.transfer.id == tid)

/-- Combined queue state: in-memory FIFO mirror plus the durable store. -/
structure QueueState where
  mem : List QueuedTransfer
  db : List DbRow
deriving DecidableEq

/-- What a single worker-loop iteration did, mirroring the branches of
`TransferQueue._worker_loop` (transfer_queue.py lines 367-431). -/
inductive DrainAction
  | idle
  | reinsertedNotEligible (t : QueuedTransfer)
  | failedFileMissing (t : QueuedTransfer)
  | transferSucceeded (t : QueuedTransfer)
  | retryScheduled (t : QueuedTransfer) (delay : Nat)
  | failedPermanently (t : QueuedTransfer)
deriving DecidableEq

/-- Embedding of one iteration of `TransferQueue._worker_loop`
(transfer_queue.py lines 367-431): pop the FIFO head; if its scheduled
time has not arrived, reinsert it at the tail; if the local file no longer
exists, mark the row failed and move on; otherwise mark it processing and
invoke the SCP service (abstracted into `uploadSucceeds`).  On success the
row is marked completed and removed; on failure the retry counter is
incremented and, while below `max_retries`, the entry is rescheduled with
exponential backoff `baseDelay * 2 ^ (retry_count - 1)` and reinserted,
otherwise the row is marked permanently failed. -/
def worker_step (now : Nat) (fileExists : String → Bool) (uploadSucceeds : Bool)
    (baseDelay : Nat) (st : QueueState) : QueueState × DrainAction :=
  match st.mem with
  | [] => (st, .idle)
  | t :: rest =>
    if now < t.scheduled_at then
      ({ st with mem := rest ++ [t] }, .reinsertedNotEligible t)
    else if fileExists t.local_path = false then
      ({ mem := rest,
         db := dbUpdateStatus st.db t.id .failed (some "Local file not found") },
       .failedFileMissing t)
    else
      let db1 := dbUpdateStatus st.db t.id .processing none
      if uploadSucceeds then
        ({ mem := rest, db := dbRemove (dbUpdateStatus db1 t.id .completed none) t.id },
         .transferSucceeded t)
      else
        let t1 := { t with retry_count := t.retry_count + 1,
                           last_error := some "transfer failed" }
        if t1.retry_count < t1.max_retries then
          let delay := baseDelay * 2 ^ (t1.retry_count - 1)
          let t2 := { t1 with scheduled_at := now + delay }
          ({ mem := rest ++ [t2], db := dbSave db1 t2 .queued },
           .retryScheduled t2 delay)
        else
          ({ mem := rest, db := dbUpdateStatus db1 t.id .failed t1.last_error },
           .failedPermanently t1)

/-- Embedding of `TransferQueue.retry_failed_transfer` (transfer_queue.py
lines 230-277): load the row by id; refuse when missing or when
`retry_count >= max_retries`; otherwise increment the retry count, set the
schedule time, save the row as queued and put it on the in-memory queue. -/
def retry_failed_transfer (now delay_seconds : Nat) (st : QueueState)
    (tid : Nat) : Bool × QueueState :=
  match dbLookup st.db tid with
  | none => (false, st)
  | some row =>
    if row.transfer.max_retries ≤ row.transfer.retry_count then (false, st)
    else
      let t1 := { row.transfer with
        retry_count := row.transfer.retry_count + 1,
        scheduled_at := now + delay_seconds }
      (true, { mem := st.mem ++ [t1], db := dbSave st.db t1 .queued })

/-- Statuses selected by `get_pending_transfers` (`status IN ('queued',
'processing', 'failed')`). -/
def pendingStatus : TransferDbStatus → Bool
  | .queued => true
  | .processing => true
  | .failed => true
  | .completed => false

/-- The `ORDER BY priority DESC, scheduled_at ASC` order of
`get_pending_transfers` and `_load_queue_from_db`. -/
def pendingOrder (a b : DbRow) : Prop :=
  b.transfer.priority < a.transfer.priority ∨
  (a.transfer.priority = b.transfer.priority ∧
    a.transfer.scheduled_at ≤ b.transfer.scheduled_at)

instance : DecidableRel pendingOrder := fun a b => by
  unfold pendingOrder
  exact inferInstance

/-- Embedding of `TransferQueue.get_pending_transfers` (transfer_queue.py
lines 304-330): rows whose status is queued, processing or failed, ordered
by priority descending then scheduled time ascending, limited. -/
def get_pending_transfers (db : List DbRow) (limit : Nat) : List DbRow :=
  (List.insertionSort pendingOrder (db.filter (fun r => pendingStatus r.status))).take limit

/-! ## SchedulerService admission control (C2)

The scheduler's view of the system is the multiset of tracked sessions'
`current_stage` values, modeled as a list.  A fire
(`_execute_recording_job`) checks `_can_start_recording` and, when
admitted, creates a session whose manager starts in the `initializing`
stage; the session's own workflow thread later advances the stage. -/

/-- Whether a stage counts as active for admission
(`_can_start_recording`, scheduler_service.py lines 457-471: stage value in
['recording', 'processing', 'transferring']). -/
def stageActive : WorkflowStage → Bool
  | .recording => true
  | .processing => true
  | .transferring => true
  | _ => false

/-- Number of tracked sessions currently in an active stage. -/
def activeCount (st : List WorkflowStage) : Nat :=
  (st.filter stageActive).length

/-- Number of tracked sessions still in the `initializing` stage. -/
def initCount (st : List WorkflowStage) : Nat :=
  (st.filter (fun s => s == WorkflowStage.initializing)).length

/-- Embedding of `SchedulerService._can_start_recording`. -/
def can_start_recording (maxConc : Nat) (st : List WorkflowStage) : Bool :=
  activeCount st < maxConc

/-- Embedding of the admission part of
`SchedulerService._execute_recording_job` (scheduler_service.py lines
386-455): when `_can_start_recording` fails, return without creating or
persisting a session and without invoking the start callback (second
component `false`); otherwise create a session whose manager starts in the
`initializing` stage and invoke the callback (second component `true`). -/
def execute_recording_job (maxConc : Nat) (st : List WorkflowStage) :
    List WorkflowStage × Bool :=
  if can_start_recording maxConc st then (st ++ [WorkflowStage.initializing], true)
  else (st, false)

/-- The stage transitions a session's own workflow thread can perform,
read off `_run_workflow` and its stage helpers in
recording_session_manager.py. -/
def stageStep : WorkflowStage → WorkflowStage → Bool
  | .initializing, .recording => true
  | .recording, .processing => true
  | .recording, .failed => true
  | .recording, .cancelled => true
  | .processing, .transferring => true
  | .processing, .failed => true
  | .processing, .cancelled => true
  | .transferring, .completed => true
  | .transferring, .failed => true
  | _, _ => false

/-- States of the scheduler reachable from the empty session list by fires
and by the sessions' own stage transitions, interleaved arbitrarily. -/
inductive SchedReachable (maxConc : Nat) : List WorkflowStage → Prop
  | empty : SchedReachable maxConc []
  | fire (st : List WorkflowStage) : SchedReachable maxConc st →
      SchedReachable maxConc (execute_recording_job maxConc st).1
  | advance (st : List WorkflowStage) (i : Nat) (b : WorkflowStage) :
      SchedReachable maxConc st → (hi : i < st.length) →
      stageStep (st.get ⟨i, hi⟩) b = true →
      SchedReachable maxConc (st.set i b)

/-- Reachability under the additional synchronization assumption that a
trigger only fires once every previously admitted session has left the
`initializing` stage (i.e. its workflow thread has already run). -/
inductive SchedReachableSync (maxConc : Nat) : List WorkflowStage → Prop
  | empty : SchedReachableSync maxConc []
  | fire (st : List WorkflowStage) : SchedReachableSync maxConc st →
      initCount st = 0 →
      SchedReachableSync maxConc (execute_recording_job maxConc st).1
  | advance (st : List WorkflowStage) (i : Nat) (b : WorkflowStage) :
      SchedReachableSync maxConc st → (hi : i < st.length) →
      stageStep (st.get ⟨i, hi⟩) b = true →
      SchedReachableSync maxConc (st.set i b)

/-! ## Cron field validation (C5)

`RecordingSchedule.validate_cron_expression` (recording_schedule.py lines
37-71) splits the expression into 5 whitespace-separated fields and checks
each against a field-specific regular expression of the shape
value | value,value,... | value-value | */value | *, where the value
pattern is a per-field character class; a failing field raises a ValueError
naming the field.  A final call into the external `croniter` library (not
part of this repository and not modeled here) re-checks the whole
expression, raising a generic message without a field name.
The regular expressions are embedded below as decidable matchers over
`List Char`; character classes are compared through `Char.toNat`. -/

/-- Character-class membership by code point, for the regex character
classes. -/
def charBetween (lo hi c : Char) : Bool :=
  lo.toNat ≤ c.toNat && c.toNat ≤ hi.toNat

/-- Character equality by code point, for literal characters in the
patterns. -/
def charIs (d c : Char) : Bool :=
  c.toNat == d.toNat

/-- A decimal digit, the regex class backslash-d. -/
def isDigitChar (c : Char) : Bool := charBetween '0' '9' c

/-- Split a character list at every occurrence of `sep`. -/
def splitOnChar (sep : Char) : List Char → List (List Char)
  | [] => [[]]
  | c :: cs =>
    let r := splitOnChar sep cs
    if c = sep then [] :: r
    else
      match r with
      | [] => [[c]]
      | h :: t => (c :: h) :: t

/-- Python `str.split()`: split on whitespace runs, dropping empty parts
(the expressions use spaces). -/
def splitFields (s : List Char) : List (List Char) :=
  (splitOnChar ' ' s).filter (fun p => !p.isEmpty)

/-- The minute value atom `[0-5]?\d` (one digit, or 0-5 then a digit). -/
def minuteVal : List Char → Bool
  | [c] => isDigitChar c
  | [c1, c2] => charBetween '0' '5' c1 && isDigitChar c2
  | _ => false

/-- The hour value atom `1?\d|2[0-3]`. -/
def hourVal : List Char → Bool
  | [c] => isDigitChar c
  | [c1, c2] => (charIs '1' c1 && isDigitChar c2) ||
      (charIs '2' c1 && charBetween '0' '3' c2)
  | _ => false

/-- The day value atom `[1-2]?\d|3[01]` — note that the optional `[1-2]`
leaves the bare `\d` alternative, which matches the digit 0. -/
def dayVal : List Char → Bool
  | [c] => isDigitChar c
  | [c1, c2] => (charBetween '1' '2' c1 && isDigitChar c2) ||
      (charIs '3' c1 && charBetween '0' '1' c2)
  | _ => false

/-- The month value atom `1[0-2]|[1-9]`. -/
def monthVal : List Char → Bool
  | [c] => charBetween '1' '9' c
  | [c1, c2] => charIs '1' c1 && charBetween '0' '2' c2
  | _ => false

/-- The weekday value atom `[0-6]`. -/
def weekdayVal : List Char → Bool
  | [c] => charBetween '0' '6' c
  | _ => false

/-- A field matches its pattern when it is `*`, a comma-separated list of
value atoms, a `value-value` range, or a `*/value` step — the exact
alternation of the anchored per-field regexes. -/
def fieldMatches (num : List Char → Bool) (s : List Char) : Bool :=
  (match s with
   | [c] => charIs '*' c
   | _ => false) ||
  (splitOnChar ',' s).all num ||
  (match splitOnChar '-' s with
   | [a, b] => num a && num b
   | _ => false) ||
  (match s with
   | c1 :: c2 :: rest => charIs '*' c1 && charIs '/' c2 && num rest
   | _ => false)

/-- Result of the embedded field-level validation. -/
inductive CronCheck
  | ok
  | emptyExpr
  | wrongFieldCount
  | invalidField (name : String) (value : List Char)
deriving DecidableEq

/-- The field-level checks of `RecordingSchedule.validate_cron_expression`
(recording_schedule.py lines 45-63): exactly 5 fields, each matched against
its pattern in order, the first failing field reported by name.  A result
of `ok` means every field-level check passed; the original function then
defers to the external `croniter` library for a final parse. -/
def validate_cron_fields : List (List Char) → CronCheck
  | [mi, h, d, mo, w] =>
    if fieldMatches minuteVal mi = false then CronCheck.invalidField "minute" mi
    else if fieldMatches hourVal h = false then CronCheck.invalidField "hour" h
    else if fieldMatches dayVal d = false then CronCheck.invalidField "day" d
    else if fieldMatches monthVal mo = false then CronCheck.invalidField "month" mo
    else if fieldMatches weekdayVal w = false then CronCheck.invalidField "weekday" w
    else CronCheck.ok
  | _ => CronCheck.wrongFieldCount

/-- Embedding of `RecordingSchedule.validate_cron_expression` up to (and
excluding) the final external `croniter` call: empty-expression check,
5-field count check and the per-field pattern checks. -/
def validate_cron_expression (s : String) : CronCheck :=
  let parts := splitFields s.data
  if parts.isEmpty then CronCheck.emptyExpr else validate_cron_fields parts

/-- Numeric value of a (decimal) character list, most significant first. -/
def numeralVal (s : List Char) : Nat :=
  s.foldl (fun a c => 10 * a + (c.toNat - 48)) 0

/-- A nonempty all-digit character list. -/
def isNumeral (s : List Char) : Bool :=
  !s.isEmpty && s.all isDigitChar

/-- The legal day-of-month range of a 5-field cron expression. -/
def dayInRange (n : Nat) : Bool :=
  1 ≤ n && n ≤ 31

/-- The id of the entry a drain action concerned, if any. -/
def DrainAction.actedId : DrainAction → Option Nat
  | .idle => none
  | .reinsertedNotEligible t => some t.id
  | .failedFileMissing t => some t.id
  | .transferSucceeded t => some t.id
  | .retryScheduled t _ => some t.id
  | .failedPermanently t => some t.id

/-- Run a sequence of worker iterations, one at each of the given clock
times, collecting the drain actions. -/
def drainSeq (f : String → Bool) (ok : Bool) (D : Nat) :
    List Nat → QueueState → QueueState × List DrainAction
  | [], st => (st, [])
  | n :: ns, st =>
    let r := worker_step n f ok D st
    let rest := drainSeq f ok D ns r.1
    (rest.1, r.2 :: rest.2)

/-! ## Concrete sample values used by counterexamples and witnesses -/

/-- A session that has just failed its first attempt, with both artifact
files of that attempt on disk next to an unrelated file. -/
def sampleFailedSession : SessionState :=
  { current_stage := WorkflowStage.failed,
    retry_count := 0,
    max_retries := 3,
    error_message := some "Recording failed",
    raw_recording_path := some "/rec/a_raw.mp3",
    processed_mp3_path := some "/rec/a.mp3",
    existingFiles := ["/rec/a_raw.mp3", "/rec/a.mp3", "/rec/keep.mp3"] }

/-- A ready transfer with priority 0, enqueued first. -/
def lowPriTransfer : QueuedTransfer :=
  { id := 1, local_path := "/rec/a.mp3", scp_destination := "user@host:/dst",
    scheduled_at := 0, retry_count := 0, max_retries := 3, priority := 0,
    last_error := none }

/-- A ready transfer with priority 5, enqueued second. -/
def highPriTransfer : QueuedTransfer :=
  { id := 2, local_path := "/rec/b.mp3", scp_destination := "user@host:/dst",
    scheduled_at := 0, retry_count := 0, max_retries := 3, priority := 5,
    last_error := none }

/-- Queue state whose FIFO holds the priority-0 entry ahead of the
priority-5 entry (the insertion order of `add_transfer` calls). -/
def qstateTwo : QueueState :=
  { mem := [lowPriTransfer, highPriTransfer],
    db := [{ transfer := lowPriTransfer, status := TransferDbStatus.queued },
           { transfer := highPriTransfer, status := TransferDbStatus.queued }] }

/-- A transfer scheduled in the future. -/
def lateTransfer : QueuedTransfer :=
  { id := 3, local_path := "/rec/late.mp3", scp_destination := "user@host:/dst",
    scheduled_at := 100, retry_count := 0, max_retries := 3, priority := 0,
    last_error := none }

/-- Queue state whose FIFO holds only the not-yet-eligible entry. -/
def qstateLate : QueueState :=
  { mem := [lateTransfer],
    db := [{ transfer := lateTransfer, status := TransferDbStatus.queued }] }

/-- A fresh ready transfer about to be drained for the first time. -/
def freshTransfer : QueuedTransfer :=
  { id := 4, local_path := "/rec/d.mp3", scp_destination := "user@host:/dst",
    scheduled_at := 0, retry_count := 0, max_retries := 3, priority := 0,
    last_error := none }

/-- Queue state after the worker has exhausted the fresh transfer's
retries: three failing drains leave its row marked failed.  The exhaust
branch persists only status and error — the final in-memory increment is
dropped — so the stored retry count is 2, one below `max_retries`. -/
def c4ExhaustedOnce : QueueState :=
  (drainSeq (fun _ => true) false 60 [100, 300, 600]
    ⟨[freshTransfer], [⟨freshTransfer, TransferDbStatus.queued⟩]⟩).1

/-- The same entry after one manual-retry cycle: the manual retry persists
retry count 3 and re-queues it, and the next failing drain marks the row
failed again — now with the persisted count at `max_retries`. -/
def c4ExhaustedTwice : QueueState :=
  (worker_step 800 (fun _ => true) false 60
    (retry_failed_transfer 700 0 c4ExhaustedOnce 4).2).1

/-- A transfer-client environment in which every upload attempt is refused
at the connection level. -/
def sampleEnvAllFail : SCPEnv :=
  { localFileExists := true, destinationParses := true,
    attemptOutcome := fun _ => AttemptOutcome.authConnectionError }

/-- The default SCP configuration: `DEFAULT_MAX_RETRIES = 3`,
`RETRY_DELAY_SECONDS = 60`, `CLEANUP_AFTER_TRANSFER = true` (config.py). -/
def sampleSCPConfig : SCPConfig :=
  { max_retries := 3, retry_delay := 60, cleanup_after_transfer := true }

/-! ## C1: the Transferring stage -/

/-- C1 counterexample: with capture and processing succeeding and every
upload attempt failing, `_run_workflow` does NOT drive the session to
Completed — no artifact is enqueued to the TransferQueue, the SCP client is
invoked synchronously, and the session is left in the Transferring stage
(which is also not Failed). -/
theorem C1_counterexample :
    (run_workflow ⟨true, false, true, false, TransferStageOutcome.fail⟩).finalStage =
      WorkflowStage.transferring ∧
    (run_workflow ⟨true, false, true, false, TransferStageOutcome.fail⟩).finalStage ≠
      WorkflowStage.completed ∧
    (run_workflow ⟨true, false, true, false, TransferStageOutcome.fail⟩).enqueued = false ∧
    (run_workflow ⟨true, false, true, false, TransferStageOutcome.fail⟩).scpInvoked = true := by
  decide

/-- C1 amended: for every session whose capture and processing stages
succeed (and that is not stopped), entering the Transferring stage invokes
the SCP transfer client synchronously and enqueues nothing to the
TransferQueue; the session reaches Completed exactly when that synchronous
transfer succeeds, and when every upload attempt fails the session ends in
the Transferring stage — neither Completed nor Failed. -/
theorem C1_transfer_stage_synchronous (env : WorkflowEnv)
    (hrec : env.recordingOk = true) (hs1 : env.stopAfterRecording = false)
    (hproc : env.processingOk = true) (hs2 : env.stopAfterProcessing = false) :
    (run_workflow env).scpInvoked = true ∧
    (run_workflow env).enqueued = false ∧
    ((run_workflow env).finalStage = WorkflowStage.completed ↔
      env.transferOutcome = TransferStageOutcome.ok) ∧
    (env.transferOutcome = TransferStageOutcome.fail →
      (run_workflow env).finalStage = WorkflowStage.transferring) ∧
    (env.transferOutcome = TransferStageOutcome.exn →
      (run_workflow env).finalStage = WorkflowStage.failed) := by
  rcases env with ⟨a, b, c, d, e⟩
  simp only at hrec hs1 hproc hs2
  subst hrec hs1 hproc hs2
  cases e <;> simp [run_workflow, execute_transfer_stage]

/-- C1 witness: the amended theorem applied to a run whose synchronous
transfer succeeds. -/
theorem C1_transfer_stage_synchronous_witness :
    (run_workflow ⟨true, false, true, false, TransferStageOutcome.ok⟩).finalStage =
      WorkflowStage.completed ∧
    (run_workflow ⟨true, false, true, false, TransferStageOutcome.ok⟩).enqueued = false := by
  have h := C1_transfer_stage_synchronous ⟨true, false, true, false, TransferStageOutcome.ok⟩
    rfl rfl rfl rfl
  exact ⟨h.2.2.1.mpr rfl, h.2.1⟩

/-! ## C8: retry of a Failed session -/

/-- C8: a session in the Failed stage whose retry counter is below the
configured max is retried: the stage is reset to Initializing, the retry
counter is incremented, the raw and processed artifact files of the prior
attempt are removed from disk before the new attempt starts, and the
output paths are regenerated; a session whose counter has reached the max
is refused — the call returns false and the stage (Failed) and counter are
unchanged. -/
theorem C8_retry_policy (st : SessionState) (newRaw newProc : String) :
    (st.current_stage = WorkflowStage.failed → st.retry_count < st.max_retries →
      (retry_workflow newRaw newProc st).1 = true ∧
      (retry_workflow newRaw newProc st).2.current_stage = WorkflowStage.initializing ∧
      (retry_workflow newRaw newProc st).2.retry_count = st.retry_count + 1 ∧
      (retry_workflow newRaw newProc st).2.raw_recording_path = some newRaw ∧
      (retry_workflow newRaw newProc st).2.processed_mp3_path = some newProc ∧
      (∀ p, st.raw_recording_path = some p →
        p ∉ (retry_workflow newRaw newProc st).2.existingFiles) ∧
      (∀ p, st.processed_mp3_path = some p →
        p ∉ (retry_workflow newRaw newProc st).2.existingFiles)) ∧
    (st.max_retries ≤ st.retry_count →
      (retry_workflow newRaw newProc st).1 = false ∧
      (retry_workflow newRaw newProc st).2.current_stage = st.current_stage ∧
      (retry_workflow newRaw newProc st).2.retry_count = st.retry_count) := by
  constructor
  · intro hstage hcnt
    rcases st with ⟨stage, rc, mr, em, rawp, procp, files⟩
    simp only at hstage hcnt
    subst hstage
    have hnot : ¬ mr ≤ rc := Nat.not_le.mpr hcnt
    cases rawp <;> cases procp <;>
      simp [retry_workflow, cleanup_failed_attempt, hnot, List.mem_filter]
  · intro hle
    rcases st with ⟨stage, rc, mr, em, rawp, procp, files⟩
    simp only at hle
    simp [retry_workflow, if_pos hle]

/-- C8 witness: the retry theorem applied to `sampleFailedSession` with
fresh paths. -/
theorem C8_retry_policy_witness :
    (retry_workflow "/rec/b_raw.mp3" "/rec/b.mp3" sampleFailedSession).1 = true ∧
    (retry_workflow "/rec/b_raw.mp3" "/rec/b.mp3" sampleFailedSession).2.retry_count = 1 ∧
    "/rec/a_raw.mp3" ∉
      (retry_workflow "/rec/b_raw.mp3" "/rec/b.mp3" sampleFailedSession).2.existingFiles := by
  have h := (C8_retry_policy sampleFailedSession "/rec/b_raw.mp3" "/rec/b.mp3").1
    (by decide) (by decide)
  exact ⟨h.1, h.2.2.1, h.2.2.2.2.2.1 "/rec/a_raw.mp3" rfl⟩

/-! ## C7, C10: the SCP transfer client -/

/-- Closed form of the retry loop when every attempt fails, for a positive
starting index: the loop performs all remaining attempts, sleeping
`d * 2 ^ i` for the attempt indices it visits. -/
theorem transfer_attempt_loop_fail_pos (outcomes : Nat → AttemptOutcome) (d : Nat)
    (hfail : ∀ j, (outcomes j).isSuccess = false) :
    ∀ fuel k, transfer_attempt_loop outcomes d (fuel + 1) (k + 1) =
      ((List.range' k (fuel + 1)).map (fun i => d * 2 ^ i),
        (k + fuel + 2, outcomes (k + fuel + 1))) := by
  intro fuel
  induction fuel with
  | zero =>
    intro k
    simp [transfer_attempt_loop, hfail]
  | succ n ih =>
    intro k
    have harg1 : k + 1 + n + 2 = k + (n + 1) + 2 := by omega
    have harg2 : k + 1 + n + 1 = k + (n + 1) + 1 := by omega
    have hstep := ih (k + 1)
    rw [harg1, harg2] at hstep
    rw [transfer_attempt_loop]
    simp only [hfail, Nat.add_eq_zero, Nat.succ_ne_zero, and_false, if_false,
      Bool.false_eq_true, hstep, List.range'_succ]
    simp [Nat.add_assoc]

/-- Closed form of the whole retry loop when every attempt fails, starting
at attempt index 0 (no sleep before the first attempt). -/
theorem transfer_attempt_loop_fail_zero (outcomes : Nat → AttemptOutcome) (d : Nat)
    (hfail : ∀ j, (outcomes j).isSuccess = false) (fuel : Nat) :
    transfer_attempt_loop outcomes d (fuel + 1) 0 =
      ((List.range fuel).map (fun i => d * 2 ^ i), (fuel + 1, outcomes fuel)) := by
  cases fuel with
  | zero => simp [transfer_attempt_loop, hfail]
  | succ n =>
    rw [transfer_attempt_loop]
    have hstep := transfer_attempt_loop_fail_pos outcomes d hfail n 0
    simp only [Nat.zero_add] at hstep
    simp [hfail, hstep, List.range_eq_range']

/-- C7: the transfer client deletes the local source file only when the
transfer succeeded and the cleanup-after-transfer policy is enabled; on
every failure path (missing file, parse error, or any sequence of failed
upload attempts) the local source file is left in place. -/
theorem C7_cleanup_only_on_success (env : SCPEnv) (cfg : SCPConfig) :
    ((transfer_file env cfg).localFileDeleted = true →
      (transfer_file env cfg).success = true ∧ cfg.cleanup_after_transfer = true) ∧
    ((transfer_file env cfg).success = false →
      (transfer_file env cfg).localFileDeleted = false) := by
  rcases env with ⟨fe, dp, oc⟩
  cases fe <;> cases dp <;>
    constructor <;> intro h <;> simp_all [transfer_file]

/-- C7 witness: with every attempt failing under the default
configuration, the local file is not deleted. -/
theorem C7_cleanup_only_on_success_witness :
    (transfer_file sampleEnvAllFail sampleSCPConfig).localFileDeleted = false := by
  have h := C7_cleanup_only_on_success sampleEnvAllFail sampleSCPConfig
  exact h.2 rfl

/-- C10: for a call on an existing file with a destination that parses,
when every upload attempt fails the client performs `max_retries + 1`
network attempts in this single call, sleeping
`retry_delay * 2 ^ (attempt - 1)` before each retry, and returns one failed
result — so a single queue-level drain multiplies into several network
attempts. -/
theorem C10_client_internal_retries (env : SCPEnv) (cfg : SCPConfig)
    (hf : env.localFileExists = true) (hp : env.destinationParses = true)
    (hfail : ∀ k, (env.attemptOutcome k).isSuccess = false) :
    (transfer_file env cfg).attemptsMade = cfg.max_retries + 1 ∧
    (transfer_file env cfg).sleeps =
      (List.range cfg.max_retries).map (fun i => cfg.retry_delay * 2 ^ i) ∧
    (transfer_file env cfg).success = false ∧
    (transfer_file env cfg).failedBeforeAttempt = false := by
  have hloop := transfer_attempt_loop_fail_zero env.attemptOutcome cfg.retry_delay hfail
    cfg.max_retries
  simp [transfer_file, hf, hp, hloop, hfail]

/-- C10 witness: the default configuration (3 retries, 60 s base delay)
with every attempt refused performs 4 attempts with sleeps 60, 120, 240
and fails. -/
theorem C10_client_internal_retries_witness :
    (transfer_file sampleEnvAllFail sampleSCPConfig).attemptsMade = 4 ∧
    (transfer_file sampleEnvAllFail sampleSCPConfig).sleeps = [60, 120, 240] ∧
    (transfer_file sampleEnvAllFail sampleSCPConfig).success = false := by
  have h := C10_client_internal_retries sampleEnvAllFail sampleSCPConfig rfl rfl
    (fun _ => rfl)
  refine ⟨h.1.trans (by decide), h.2.1.trans (by decide), h.2.2.1⟩

/-! ## C3: queue-level exponential backoff and exhaustion -/

/-- C3: a queued transfer with `max_retries = 3` whose upload fails at
every drain: the first failing drain increments the counter to 1 and
reschedules it after delay D, the second to 2 with delay D·2, and the
third drain marks it permanently failed (counter 3, no reinsertion); the
in-memory queue is then empty and any further worker iteration is idle, so
no 4th attempt is ever initiated. -/
theorem C3_exponential_backoff_then_permanent_failure
    (tid : Nat) (lp sdst : String) (sa : Nat) (pr : Int) (le0 : Option String)
    (f : String → Bool) (D n1 n2 n3 n4 : Nat) (ok4 : Bool)
    (hfile : f lp = true) (h1 : sa ≤ n1) (h2 : n1 + D ≤ n2) (h3 : n2 + D * 2 ≤ n3) :
    drainSeq f false D [n1, n2, n3]
      ⟨[⟨tid, lp, sdst, sa, 0, 3, pr, le0⟩],
       [⟨⟨tid, lp, sdst, sa, 0, 3, pr, le0⟩, TransferDbStatus.queued⟩]⟩ =
      (⟨[], [⟨⟨tid, lp, sdst, n2 + D * 2, 2, 3, pr, some "transfer failed"⟩,
              TransferDbStatus.failed⟩]⟩,
       [DrainAction.retryScheduled
          ⟨tid, lp, sdst, n1 + D, 1, 3, pr, some "transfer failed"⟩ D,
        DrainAction.retryScheduled
          ⟨tid, lp, sdst, n2 + D * 2, 2, 3, pr, some "transfer failed"⟩ (D * 2),
        DrainAction.failedPermanently
          ⟨tid, lp, sdst, n2 + D * 2, 3, 3, pr, some "transfer failed"⟩]) ∧
    worker_step n4 f ok4 D
      ⟨[], [⟨⟨tid, lp, sdst, n2 + D * 2, 2, 3, pr, some "transfer failed"⟩,
             TransferDbStatus.failed⟩]⟩ =
      (⟨[], [⟨⟨tid, lp, sdst, n2 + D * 2, 2, 3, pr, some "transfer failed"⟩,
              TransferDbStatus.failed⟩]⟩, DrainAction.idle) := by
  have hn1 : ¬ (n1 < sa) := by omega
  have hn2 : ¬ (n2 < n1 + D) := by omega
  have hn3 : ¬ (n3 < n2 + D * 2) := by omega
  constructor
  · simp [drainSeq, worker_step, dbUpdateStatus, dbSave, applyStatus,
      hfile, hn1, hn2, hn3]
  · simp [worker_step]

/-- C3 witness: the drain sequence on the fresh sample transfer with base
delay 60 at clock times 100, 300, 600. -/
theorem C3_exponential_backoff_then_permanent_failure_witness :
    (drainSeq (fun _ => true) false 60 [100, 300, 600]
      ⟨[freshTransfer], [⟨freshTransfer, TransferDbStatus.queued⟩]⟩).2 =
      [DrainAction.retryScheduled
         ⟨4, "/rec/d.mp3", "user@host:/dst", 160, 1, 3, 0, some "transfer failed"⟩ 60,
       DrainAction.retryScheduled
         ⟨4, "/rec/d.mp3", "user@host:/dst", 420, 2, 3, 0, some "transfer failed"⟩ 120,
       DrainAction.failedPermanently
         ⟨4, "/rec/d.mp3", "user@host:/dst", 420, 3, 3, 0, some "transfer failed"⟩] := by
  have h := C3_exponential_backoff_then_permanent_failure 4 "/rec/d.mp3" "user@host:/dst"
    0 0 none (fun _ => true) 60 100 300 600 1000 false rfl (by decide) (by decide) (by decide)
  rw [show freshTransfer = ⟨4, "/rec/d.mp3", "user@host:/dst", 0, 0, 3, 0, none⟩ from rfl,
    h.1]

/-! ## C6: drain order of the in-memory queue -/

/-- C6 counterexample: with two ready entries in the in-memory FIFO, the
worker pops the entry that was inserted first (priority 0), not the ready
entry with the higher priority 5 behind it. -/
theorem C6_counterexample :
    (worker_step 10 (fun _ => true) true 60 qstateTwo).2 =
      DrainAction.transferSucceeded lowPriTransfer ∧
    lowPriTransfer.priority < highPriTransfer.priority ∧
    lowPriTransfer.scheduled_at ≤ 10 ∧
    highPriTransfer.scheduled_at ≤ 10 := by
  decide

/-- C6 amended: the worker's next drain step always acts on the FIFO head
of the in-memory queue — the earliest-inserted entry — regardless of the
priorities or eligible times of the entries behind it; a head that is not
yet eligible is reinserted at the tail. -/
theorem C6_drain_is_fifo (now : Nat) (f : String → Bool) (ok : Bool) (D : Nat)
    (st : QueueState) (t : QueuedTransfer) (rest : List QueuedTransfer)
    (hmem : st.mem = t :: rest) :
    (worker_step now f ok D st).2.actedId = some t.id ∧
    (now < t.scheduled_at →
      worker_step now f ok D st =
        ({ st with mem := rest ++ [t] }, DrainAction.reinsertedNotEligible t)) := by
  rcases st with ⟨mem, db⟩
  simp only at hmem
  subst hmem
  constructor
  · simp only [worker_step]
    split_ifs <;> simp [DrainAction.actedId]
  · intro h
    simp [worker_step, h]

/-- C6 witness: the FIFO theorem applied to the two-entry state (the
priority-0 head is acted on) and to a not-yet-eligible head (reinserted at
the tail). -/
theorem C6_drain_is_fifo_witness :
    (worker_step 10 (fun _ => true) true 60 qstateTwo).2.actedId = some 1 ∧
    worker_step 10 (fun _ => true) true 60 qstateLate =
      (qstateLate, DrainAction.reinsertedNotEligible lateTransfer) := by
  have ha := C6_drain_is_fifo 10 (fun _ => true) true 60 qstateTwo
    lowPriTransfer [highPriTransfer] rfl
  have hb := C6_drain_is_fifo 10 (fun _ => true) true 60 qstateLate
    lateTransfer [] rfl
  exact ⟨ha.1, (hb.2 (by decide)).trans (by decide)⟩

/-! ## Database helper lemmas -/

/-- Status updates never change the id of a row. -/
theorem applyStatus_id (s : TransferDbStatus) (err : Option String) (r : DbRow) :
    (applyStatus s err r).transfer.id = r.transfer.id := by
  cases err <;> rfl

/-- Status updates never change the retry count of a row. -/
theorem applyStatus_retry_count (s : TransferDbStatus) (err : Option String) (r : DbRow) :
    (applyStatus s err r).transfer.retry_count = r.transfer.retry_count := by
  cases err <;> rfl

/-- Looking up the updated id after `_update_transfer_status_in_db` finds
the old row with the update applied. -/
theorem dbLookup_dbUpdateStatus (db : List DbRow) (tid : Nat) (s : TransferDbStatus)
    (err : Option String) :
    dbLookup (dbUpdateStatus db tid s err) tid =
      (dbLookup db tid).map (applyStatus s err) := by
  induction db with
  | nil => rfl
  | cons r rs ih =>
    by_cases h : r.transfer.id = tid
    · simp [dbUpdateStatus, dbLookup, List.find?_cons, applyStatus_id, h]
    · have hb : (r.transfer.id == tid) = false := by simpa using h
      simp only [dbUpdateStatus, List.map_cons, if_neg h, dbLookup, List.find?_cons, hb]
      simpa [dbUpdateStatus, dbLookup] using ih

/-- A status update leaves every row's retry count unchanged. -/
theorem dbUpdateStatus_retry_counts (db : List DbRow) (tid : Nat)
    (s : TransferDbStatus) (err : Option String) :
    (dbUpdateStatus db tid s err).map (fun r => r.transfer.retry_count) =
      db.map (fun r => r.transfer.retry_count) := by
  induction db with
  | nil => rfl
  | cons r rs ih =>
    by_cases h : r.transfer.id = tid <;>
      simp [dbUpdateStatus, h, applyStatus_retry_count] <;>
      simpa [dbUpdateStatus] using ih

/-! ## C9: vanished source file -/

/-- C9: when the worker pops a due entry whose local source file no longer
exists, the entry is marked permanently failed in the store at once, no
row's retry counter changes, and no upload is attempted — the step's
outcome is the same for every possible upload result `ok` and the action
taken is `failedFileMissing`. -/
theorem C9_missing_file_no_attempt (now : Nat) (f : String → Bool) (ok : Bool)
    (D : Nat) (st : QueueState) (t : QueuedTransfer) (rest : List QueuedTransfer)
    (row : DbRow)
    (hmem : st.mem = t :: rest) (helig : t.scheduled_at ≤ now)
    (hmiss : f t.local_path = false) (hrow : dbLookup st.db t.id = some row) :
    (worker_step now f ok D st).2 = DrainAction.failedFileMissing t ∧
    (worker_step now f ok D st).1.mem = rest ∧
    dbLookup (worker_step now f ok D st).1.db t.id =
      some { transfer := { row.transfer with last_error := some "Local file not found" },
             status := TransferDbStatus.failed } ∧
    ((worker_step now f ok D st).1.db.map (fun r => r.transfer.retry_count)) =
      (st.db.map (fun r => r.transfer.retry_count)) := by
  rcases st with ⟨mem, db⟩
  simp only at hmem hrow
  subst hmem
  have hnl : ¬ (now < t.scheduled_at) := Nat.not_lt.mpr helig
  refine ⟨?_, ?_, ?_, ?_⟩ <;>
    simp [worker_step, hnl, hmiss, dbLookup_dbUpdateStatus, hrow, applyStatus,
      dbUpdateStatus_retry_counts]

/-- C9 witness: the vanished-file theorem applied to the fresh sample
transfer with a file system on which no file exists. -/
theorem C9_missing_file_no_attempt_witness :
    (worker_step 10 (fun _ => false) true 60
      ⟨[freshTransfer], [⟨freshTransfer, TransferDbStatus.queued⟩]⟩).2 =
      DrainAction.failedFileMissing freshTransfer ∧
    (worker_step 10 (fun _ => false) true 60
      ⟨[freshTransfer], [⟨freshTransfer, TransferDbStatus.queued⟩]⟩).1.db.map
        (fun r => r.transfer.retry_count) = [0] := by
  have h := C9_missing_file_no_attempt 10 (fun _ => false) true 60
    ⟨[freshTransfer], [⟨freshTransfer, TransferDbStatus.queued⟩]⟩ freshTransfer []
    ⟨freshTransfer, TransferDbStatus.queued⟩ rfl (by decide) rfl (by decide)
  exact ⟨h.1, h.2.2.2.trans (by decide)⟩

/-! ## C4: retention and manual retry of permanently failed transfers -/

/-- C4 counterexample: manual retry does not re-queue every permanently
failed entry.  The freshly worker-exhausted row IS re-queued (its
persisted retry count is 2, one below the max, because the exhaust branch
persists only status and error); but after that manual-retry cycle fails
again, the persisted count has reached `max_retries = 3` and the entry —
again retained with status failed — is rejected by manual retry: it
returns false and leaves the state unchanged. -/
theorem C4_counterexample :
    (retry_failed_transfer 700 0 c4ExhaustedOnce 4).1 = true ∧
    c4ExhaustedTwice.mem = [] ∧
    dbLookup c4ExhaustedTwice.db 4 =
      some { transfer := ⟨4, "/rec/d.mp3", "user@host:/dst", 700, 3, 3, 0,
               some "transfer failed"⟩,
             status := TransferDbStatus.failed } ∧
    (retry_failed_transfer 900 0 c4ExhaustedTwice 4).1 = false ∧
    (retry_failed_transfer 900 0 c4ExhaustedTwice 4).2 = c4ExhaustedTwice := by
  decide

/-- C4 amended: a permanently failed entry is retained in the durable
store and appears in the pending/failed list query.  Manual retry
re-queues a failed entry exactly when its PERSISTED retry count is still
below `max_retries`, and rejects it (returns false, state unchanged) once
the persisted count has reached `max_retries`.  The worker's exhaust
branch persists only status and error — the retained row keeps its
pre-drain retry count — so a freshly worker-exhausted row (persisted
count `max_retries - 1`) is re-queued by manual retry, while an entry
whose persisted count has reached the max (after a manual-retry cycle
fails again) cannot be re-queued. -/
theorem C4_permanent_failure_retention (st : QueueState) (tid : Nat) (row : DbRow)
    (now delaySec limit : Nat)
    (hrow : dbLookup st.db tid = some row) :
    (row.status = TransferDbStatus.failed → st.db.length ≤ limit →
      row ∈ get_pending_transfers st.db limit) ∧
    (row.transfer.max_retries ≤ row.transfer.retry_count →
      retry_failed_transfer now delaySec st tid = (false, st)) ∧
    (row.transfer.retry_count < row.transfer.max_retries →
      (retry_failed_transfer now delaySec st tid).1 = true ∧
      (retry_failed_transfer now delaySec st tid).2.mem =
        st.mem ++ [{ row.transfer with
          retry_count := row.transfer.retry_count + 1,
          scheduled_at := now + delaySec }]) ∧
    (∀ (f : String → Bool) (D : Nat) (t : QueuedTransfer)
      (rest : List QueuedTransfer),
      st.mem = t :: rest → t.scheduled_at ≤ now → f t.local_path = true →
      t.max_retries ≤ t.retry_count + 1 → t.id = tid →
      dbLookup (worker_step now f false D st).1.db tid =
        some { transfer := { row.transfer with last_error := some "transfer failed" },
               status := TransferDbStatus.failed }) := by
  refine ⟨?_, ?_, ?_, ?_⟩
  · intro hst hlim
    unfold get_pending_transfers
    rw [List.take_of_length_le]
    · exact ((List.perm_insertionSort _ _).mem_iff).mpr
        (List.mem_filter.mpr
          ⟨List.mem_of_find?_eq_some hrow, by simp [hst, pendingStatus]⟩)
    · rw [List.length_insertionSort]
      exact le_trans (List.length_filter_le _ _) hlim
  · intro h
    simp [retry_failed_transfer, hrow, h]
  · intro h
    have hn : ¬ (row.transfer.max_retries ≤ row.transfer.retry_count) :=
      Nat.not_le.mpr h
    simp [retry_failed_transfer, hrow, hn]
  · intro f D t rest hmem helig hfile hmax hid
    subst hid
    rcases st with ⟨mem, db⟩
    simp only at hmem hrow
    subst hmem
    have hnl : ¬ (now < t.scheduled_at) := Nat.not_lt.mpr helig
    have hnr : ¬ (t.retry_count + 1 < t.max_retries) := by omega
    simp [worker_step, hnl, hfile, hnr, dbLookup_dbUpdateStatus, hrow, applyStatus]

/-- C4 witness: the retention theorem applied to both generations of the
exhausted entry — the worker-exhausted row (persisted count 2) is in the
pending list and is re-queued by manual retry, while the row whose
persisted count reached 3 is rejected. -/
theorem C4_permanent_failure_retention_witness :
    ({ transfer := ⟨4, "/rec/d.mp3", "user@host:/dst", 420, 2, 3, 0,
         some "transfer failed"⟩,
       status := TransferDbStatus.failed } : DbRow) ∈
      get_pending_transfers c4ExhaustedOnce.db 50 ∧
    (retry_failed_transfer 700 0 c4ExhaustedOnce 4).1 = true ∧
    retry_failed_transfer 900 0 c4ExhaustedTwice 4 = (false, c4ExhaustedTwice) := by
  have h1 := C4_permanent_failure_retention c4ExhaustedOnce 4
    { transfer := ⟨4, "/rec/d.mp3", "user@host:/dst", 420, 2, 3, 0,
        some "transfer failed"⟩,
      status := TransferDbStatus.failed } 700 0 50 (by decide)
  have h2 := C4_permanent_failure_retention c4ExhaustedTwice 4
    { transfer := ⟨4, "/rec/d.mp3", "user@host:/dst", 700, 3, 3, 0,
        some "transfer failed"⟩,
      status := TransferDbStatus.failed } 900 0 50 (by decide)
  exact ⟨h1.1 rfl (by decide), (h1.2.2.1 (by decide)).1, h2.2.1 (by decide)⟩

/-! ## C2: concurrency admission control -/

/-- Effect of updating one position on the length of a filtered list: the
element leaving and the element entering balance the count. -/
theorem length_filter_set (p : WorkflowStage → Bool) :
    ∀ (l : List WorkflowStage) (i : Nat) (b : WorkflowStage) (hi : i < l.length),
      ((l.set i b).filter p).length + (if p (l.get ⟨i, hi⟩) then 1 else 0) =
        (l.filter p).length + (if p b then 1 else 0) := by
  intro l
  induction l with
  | nil =>
    intro i b hi
    simp at hi
  | cons a t ih =>
    intro i b hi
    cases i with
    | zero =>
      by_cases hb : p b <;> by_cases ha : p a <;>
        simp [List.filter_cons, hb, ha]
    | succ n =>
      have hn : n < t.length := by simpa using hi
      have hrec := ih n b hn
      simp only [List.get_eq_getElem] at hrec
      by_cases ha : p a <;>
        simp [List.set, List.filter_cons, ha] <;>
        omega

/-- Invariant of the synchronized scheduler: the sessions in the three
counted stages together with the sessions still in `initializing` never
exceed the configured limit. -/
theorem schedSync_sum (maxConc : Nat) :
    ∀ st, SchedReachableSync maxConc st →
      activeCount st + initCount st ≤ maxConc := by
  intro st h
  induction h with
  | empty => simp [activeCount, initCount]
  | fire st' hr hinit ih =>
    unfold execute_recording_job
    by_cases hc : can_start_recording maxConc st'
    · have h1 : activeCount (st' ++ [WorkflowStage.initializing]) = activeCount st' := by
        simp [activeCount, List.filter_append, stageActive]
      have h2 : initCount (st' ++ [WorkflowStage.initializing]) = initCount st' + 1 := by
        simp [initCount, List.filter_append]
      have hlt : activeCount st' < maxConc := by
        simpa [can_start_recording] using hc
      simp only [hc, if_true]
      omega
    · simpa [hc] using ih
  | advance st' i b hr hi hstep ih =>
    have hA := length_filter_set stageActive st' i b hi
    have hI := length_filter_set (fun s => s == WorkflowStage.initializing) st' i b hi
    have hdelta :
        (if stageActive b then 1 else 0) +
          (if (b == WorkflowStage.initializing) then 1 else 0) ≤
        (if stageActive (st'.get ⟨i, hi⟩) then 1 else 0) +
          (if ((st'.get ⟨i, hi⟩) == WorkflowStage.initializing) then 1 else 0) := by
      cases hget : st'.get ⟨i, hi⟩ <;> cases b <;>
        simp_all [stageStep, stageActive]
    unfold activeCount initCount at *
    omega

/-- C2 counterexample: with a concurrency limit of 1, two fires can both
be admitted while the first session is still in the (uncounted)
`initializing` stage, after which both sessions advance to `recording`:
the state with two sessions in `recording` is reachable and exceeds the
limit. -/
theorem C2_counterexample :
    SchedReachable 1 [WorkflowStage.recording, WorkflowStage.recording] ∧
    1 < activeCount [WorkflowStage.recording, WorkflowStage.recording] := by
  constructor
  · have h0 : SchedReachable 1 ([] : List WorkflowStage) := SchedReachable.empty
    have h1 := SchedReachable.fire [] h0
    rw [show (execute_recording_job 1 []).1 = [WorkflowStage.initializing] from rfl] at h1
    have h2 := SchedReachable.fire [WorkflowStage.initializing] h1
    rw [show (execute_recording_job 1 [WorkflowStage.initializing]).1 =
      [WorkflowStage.initializing, WorkflowStage.initializing] from rfl] at h2
    have h3 := SchedReachable.advance
      [WorkflowStage.initializing, WorkflowStage.initializing] 0 WorkflowStage.recording
      h2 (by decide) (by decide)
    rw [show [WorkflowStage.initializing, WorkflowStage.initializing].set 0
      WorkflowStage.recording = [WorkflowStage.recording, WorkflowStage.initializing]
      from rfl] at h3
    have h4 := SchedReachable.advance
      [WorkflowStage.recording, WorkflowStage.initializing] 1 WorkflowStage.recording
      h3 (by decide) (by decide)
    simpa using h4
  · decide

/-- C2 amended: when a trigger fires while the count of sessions in
{Recording, Processing, Transferring} is at the limit, the fire is
skipped — no session is created and the start callback is not invoked;
and the at-most-N occupancy bound holds for every state reachable under
the synchronization assumption that each admitted session has left the
(uncounted) `initializing` stage before the next fire's admission check. -/
theorem C2_admission_control (maxConc : Nat) (st : List WorkflowStage) :
    (SchedReachableSync maxConc st → activeCount st ≤ maxConc) ∧
    (can_start_recording maxConc st = false →
      execute_recording_job maxConc st = (st, false)) := by
  constructor
  · intro h
    have hsum := schedSync_sum maxConc st h
    omega
  · intro h
    simp [execute_recording_job, h]

/-- C2 witness: the amended theorem applied at limit 1 to the reachable
single-recording state, where the next fire is skipped. -/
theorem C2_admission_control_witness :
    activeCount [WorkflowStage.recording] ≤ 1 ∧
    execute_recording_job 1 [WorkflowStage.recording] =
      ([WorkflowStage.recording], false) := by
  have h := C2_admission_control 1 [WorkflowStage.recording]
  refine ⟨h.1 ?_, h.2 (by decide)⟩
  have h0 : SchedReachableSync 1 ([] : List WorkflowStage) := SchedReachableSync.empty
  have h1 := SchedReachableSync.fire [] h0 (by decide)
  rw [show (execute_recording_job 1 []).1 = [WorkflowStage.initializing] from rfl] at h1
  have h2 := SchedReachableSync.advance [WorkflowStage.initializing] 0
    WorkflowStage.recording h1 (by decide) (by decide)
  simpa using h2

/-! ## C5: cron field validation -/



/-- A numeral is a nonempty list of characters with code points between
48 and 57. -/
theorem isNumeral_chars {v : List Char} (h : isNumeral v = true) :
    v ≠ [] ∧ ∀ c ∈ v, 48 ≤ c.toNat ∧ c.toNat ≤ 57 := by
  simp only [isNumeral, Bool.and_eq_true, List.all_eq_true, Bool.not_eq_true,
    isDigitChar, charBetween, decide_eq_true_eq,
    show ('0' : Char).toNat = 48 from rfl, show ('9' : Char).toNat = 57 from rfl] at h
  refine ⟨?_, h.2⟩
  intro he
  subst he
  simp at h

/-- Splitting at a character that does not occur leaves the list whole. -/
theorem splitOnChar_no_sep (sep : Char) :
    ∀ (s : List Char), (∀ c ∈ s, c ≠ sep) → splitOnChar sep s = [s] := by
  intro s
  induction s with
  | nil => intro h; rfl
  | cons c cs ih =>
    intro h
    have hc : c ≠ sep := h c (List.mem_cons_self c cs)
    have hrest := ih (fun d hd => h d (List.mem_cons_of_mem c hd))
    simp [splitOnChar, hc, hrest]

/-- On a plain numeral, the field pattern reduces to its value atom: the
star, range and step alternatives cannot fire and the list alternative
degenerates to the single value. -/
theorem fieldMatches_numeral (num : List Char → Bool) {v : List Char}
    (h : isNumeral v = true) : fieldMatches num v = num v := by
  obtain ⟨hne, hdig⟩ := isNumeral_chars h
  have hsep : ∀ sep : Char, sep.toNat < 48 → ∀ c ∈ v, c ≠ sep := by
    intro sep hs c hc he
    have hb := (hdig c hc).1
    rw [he] at hb
    omega
  have hcomma := splitOnChar_no_sep ',' v (hsep ',' (by decide))
  have hdash := splitOnChar_no_sep '-' v (hsep '-' (by decide))
  unfold fieldMatches
  rw [hcomma, hdash]
  cases v with
  | nil => exact absurd rfl hne
  | cons c cs =>
    have hc : 48 ≤ c.toNat := (hdig c (by simp)).1
    have hstar : charIs '*' c = false := by
      simp only [charIs]
      rw [show ('*' : Char).toNat = 42 from rfl]
      simp only [beq_eq_false_iff_ne, ne_eq]
      omega
    cases cs with
    | nil => simp [hstar]
    | cons c2 cs2 => simp [hstar]

/-- The minute atom rejects every numeral above 59. -/
theorem minuteVal_out_of_range {v : List Char} (h : isNumeral v = true)
    (hgt : 59 < numeralVal v) : minuteVal v = false := by
  obtain ⟨hne, hdig⟩ := isNumeral_chars h
  match v with
  | [c] =>
    have hd := hdig c (by simp)
    simp [numeralVal] at hgt
    omega
  | [c1, c2] =>
    have hd1 := hdig c1 (by simp)
    have hd2 := hdig c2 (by simp)
    simp [numeralVal] at hgt
    have hb : charBetween '0' '5' c1 = false := by
      simp only [charBetween]
      rw [show ('0' : Char).toNat = 48 from rfl, show ('5' : Char).toNat = 53 from rfl]
      simp only [Bool.and_eq_false_iff, decide_eq_false_iff_not, not_le]
      omega
    simp [minuteVal, hb]
  | c1 :: c2 :: c3 :: cs => rfl

/-- The hour atom rejects every numeral above 23. -/
theorem hourVal_out_of_range {v : List Char} (h : isNumeral v = true)
    (hgt : 23 < numeralVal v) : hourVal v = false := by
  obtain ⟨hne, hdig⟩ := isNumeral_chars h
  match v with
  | [c] =>
    have hd := hdig c (by simp)
    simp [numeralVal] at hgt
    omega
  | [c1, c2] =>
    have hd1 := hdig c1 (by simp)
    have hd2 := hdig c2 (by simp)
    simp [numeralVal] at hgt
    simp [hourVal, charIs, isDigitChar, charBetween,
      show ('1' : Char).toNat = 49 from rfl, show ('2' : Char).toNat = 50 from rfl,
      show ('0' : Char).toNat = 48 from rfl, show ('3' : Char).toNat = 51 from rfl,
      show ('9' : Char).toNat = 57 from rfl]
    omega
  | c1 :: c2 :: c3 :: cs => rfl

/-- The day atom rejects every numeral above 31 (but not the numeral 0,
which its bare-digit alternative accepts). -/
theorem dayVal_out_of_range {v : List Char} (h : isNumeral v = true)
    (hgt : 31 < numeralVal v) : dayVal v = false := by
  obtain ⟨hne, hdig⟩ := isNumeral_chars h
  match v with
  | [c] =>
    have hd := hdig c (by simp)
    simp [numeralVal] at hgt
    omega
  | [c1, c2] =>
    have hd1 := hdig c1 (by simp)
    have hd2 := hdig c2 (by simp)
    simp [numeralVal] at hgt
    simp [dayVal, charIs, isDigitChar, charBetween,
      show ('1' : Char).toNat = 49 from rfl, show ('2' : Char).toNat = 50 from rfl,
      show ('0' : Char).toNat = 48 from rfl, show ('3' : Char).toNat = 51 from rfl,
      show ('9' : Char).toNat = 57 from rfl]
    omega
  | c1 :: c2 :: c3 :: cs => rfl

/-- The month atom rejects the numeral 0 and every numeral above 12. -/
theorem monthVal_out_of_range {v : List Char} (h : isNumeral v = true)
    (hgt : numeralVal v = 0 ∨ 12 < numeralVal v) : monthVal v = false := by
  obtain ⟨hne, hdig⟩ := isNumeral_chars h
  match v with
  | [c] =>
    have hd := hdig c (by simp)
    simp [numeralVal] at hgt
    simp [monthVal, charBetween,
      show ('1' : Char).toNat = 49 from rfl, show ('9' : Char).toNat = 57 from rfl]
    omega
  | [c1, c2] =>
    have hd1 := hdig c1 (by simp)
    have hd2 := hdig c2 (by simp)
    simp [numeralVal] at hgt
    simp [monthVal, charIs, charBetween,
      show ('1' : Char).toNat = 49 from rfl, show ('0' : Char).toNat = 48 from rfl,
      show ('2' : Char).toNat = 50 from rfl]
    omega
  | c1 :: c2 :: c3 :: cs => rfl

/-- The weekday atom rejects every numeral above 6. -/
theorem weekdayVal_out_of_range {v : List Char} (h : isNumeral v = true)
    (hgt : 6 < numeralVal v) : weekdayVal v = false := by
  obtain ⟨hne, hdig⟩ := isNumeral_chars h
  match v with
  | [c] =>
    have hd := hdig c (by simp)
    simp [numeralVal] at hgt
    simp [weekdayVal, charBetween,
      show ('0' : Char).toNat = 48 from rfl, show ('6' : Char).toNat = 54 from rfl]
    omega
  | [c1, c2] => rfl
  | c1 :: c2 :: c3 :: cs => rfl

/-- A bare star matches every field pattern. -/
theorem fieldMatches_star (num : List Char → Bool) :
    fieldMatches num [('*' : Char)] = true := rfl

/-- C5 counterexample: the expression with day field 0 — a value outside
the legal day range 1-31 — passes every field-level check of the
validator, so no rejection naming the offending day field is produced
(the expression is only caught later by the external cron library, whose
error names no field). -/
theorem C5_counterexample :
    validate_cron_expression "* * 0 * *" = CronCheck.ok ∧
    isNumeral ['0'] = true ∧
    dayInRange (numeralVal ['0']) = false := by
  decide

/-- C5 amended: a cron expression with a wrong field count is rejected
with the exact-5-fields error; a plain numeric field value out of range is
rejected with an error naming the offending field — minute above 59, hour
above 23, day above 31, month 0 or above 12, weekday above 6 — with the
single exception of the day value 0, which the day pattern accepts, so the
field-level validation passes the out-of-range expression with day 0
without any field-naming error. -/
theorem C5_cron_field_validation (parts : List (List Char)) (v : List Char) :
    (parts.length ≠ 5 → validate_cron_fields parts = CronCheck.wrongFieldCount) ∧
    (isNumeral v = true →
      (59 < numeralVal v →
        validate_cron_fields [v, ['*'], ['*'], ['*'], ['*']] =
          CronCheck.invalidField "minute" v) ∧
      (23 < numeralVal v →
        validate_cron_fields [['*'], v, ['*'], ['*'], ['*']] =
          CronCheck.invalidField "hour" v) ∧
      (31 < numeralVal v →
        validate_cron_fields [['*'], ['*'], v, ['*'], ['*']] =
          CronCheck.invalidField "day" v) ∧
      (numeralVal v = 0 ∨ 12 < numeralVal v →
        validate_cron_fields [['*'], ['*'], ['*'], v, ['*']] =
          CronCheck.invalidField "month" v) ∧
      (6 < numeralVal v →
        validate_cron_fields [['*'], ['*'], ['*'], ['*'], v] =
          CronCheck.invalidField "weekday" v)) ∧
    validate_cron_expression "* * 0 * *" = CronCheck.ok := by
  refine ⟨?_, ?_, by decide⟩
  · intro hlen
    rcases parts with _ | ⟨a, _ | ⟨b, _ | ⟨c, _ | ⟨d, _ | ⟨e, _ | ⟨x, xs⟩⟩⟩⟩⟩⟩ <;>
      first
        | rfl
        | simp at hlen
  · intro hnum
    refine ⟨?_, ?_, ?_, ?_, ?_⟩
    · intro hgt
      have hfm : fieldMatches minuteVal v = false := by
        rw [fieldMatches_numeral minuteVal hnum, minuteVal_out_of_range hnum hgt]
      simp [validate_cron_fields, hfm]
    · intro hgt
      have hfm : fieldMatches hourVal v = false := by
        rw [fieldMatches_numeral hourVal hnum, hourVal_out_of_range hnum hgt]
      simp [validate_cron_fields, hfm, fieldMatches_star]
    · intro hgt
      have hfm : fieldMatches dayVal v = false := by
        rw [fieldMatches_numeral dayVal hnum, dayVal_out_of_range hnum hgt]
      simp [validate_cron_fields, hfm, fieldMatches_star]
    · intro hgt
      have hfm : fieldMatches monthVal v = false := by
        rw [fieldMatches_numeral monthVal hnum, monthVal_out_of_range hnum hgt]
      simp [validate_cron_fields, hfm, fieldMatches_star]
    · intro hgt
      have hfm : fieldMatches weekdayVal v = false := by
        rw [fieldMatches_numeral weekdayVal hnum, weekdayVal_out_of_range hnum hgt]
      simp [validate_cron_fields, hfm, fieldMatches_star]

/-- C5 witness: the amended theorem applied to an empty field list and to
the out-of-range numeral 60 in the minute and weekday slots. -/
theorem C5_cron_field_validation_witness :
    validate_cron_fields [] = CronCheck.wrongFieldCount ∧
    validate_cron_fields [['6','0'], ['*'], ['*'], ['*'], ['*']] =
      CronCheck.invalidField "minute" ['6','0'] ∧
    validate_cron_fields [['*'], ['*'], ['*'], ['*'], ['6','0']] =
      CronCheck.invalidField "weekday" ['6','0'] := by
  have h := C5_cron_field_validation [] ['6','0']
  have hn := h.2.1 (by decide)
  exact ⟨h.1 (by decide), hn.1 (by decide), hn.2.2.2.2 (by decide)⟩

end RadioRec
